import Mathlib

/-!
Verification of the Mergelytics European M&A scraper core
(src/scraper/european_ma_scraper.py) against its specification.

This file is a shallow embedding of the extraction-and-classification
pipeline: the value/currency extractor, the entity (acquirer/target)
extractor, the keyword classifiers (industry, country), the date
normalizer, the admission filter (`_meets_criteria`) and the deal
assembler (`extract_deal_info`).  Machine floats are modelled as exact
rationals (every numeral and product appearing in the claims is exactly
representable, e.g. float("1.2") * 1000 == 1200.0 holds in IEEE doubles
as well).  The external article fetch (`requests` + BeautifulSoup) is
modelled by passing the fetched article text in as a parameter, and
`datetime.now()` by passing the current date and timestamp in as
parameters.
-/

namespace Mergelytics

/-- Python regex `\w` on the ASCII range (letters, digits, underscore).
The characters relevant to the embedded patterns and the claims are
ASCII plus the euro sign, which is a non-word character both here and
in Python. -/
def isWordChar (c : Char) : Bool := c.isAlphanum || c = '_'

/-- Python regex `\s` / `str.strip` whitespace on the ASCII range. -/
def isSpaceChar (c : Char) : Bool :=
  c = ' ' || c = '\t' || c = '\n' || c = '\r' || c = '\x0b' || c = '\x0c'

/-- Python `str.lower` restricted to the alphabet actually used by the
scraper: ASCII letters plus the umlauts occurring in the German keyword
tables. -/
def lowerChar (c : Char) : Char :=
  if c = 'Ä' then 'ä' else if c = 'Ö' then 'ö' else if c = 'Ü' then 'ü' else c.toLower

def lowerStr (s : List Char) : List Char := s.map lowerChar

/-- Case-insensitive "the pattern literal `pat` (given lowercased) matches
at the head of `s`", as a compiled regex literal does under re.IGNORECASE. -/
def ciStartsWith : List Char → List Char → Bool
  | [], _ => true
  | _ :: _, [] => false
  | p :: ps, c :: cs => p = lowerChar c && ciStartsWith ps cs

/-- Python substring test `pat in hay` for strings, as lists of
characters. -/
def containsList (pat : List Char) : List Char → Bool
  | [] => pat.isEmpty
  | c :: rest => pat.isPrefixOf (c :: rest) || containsList pat rest

def digitVal (c : Char) : Nat := c.toNat - 48

def natOfDigits (ds : List Char) : Nat := ds.foldl (fun a c => a * 10 + digitVal c) 0

/-- The value of Python float(group(1)) for a numeral captured by
`(\d+(?:\.\d+)?)`, as an exact rational. -/
def ratOfNumeral (g1 : List Char) : ℚ :=
  let ds := g1.takeWhile Char.isDigit
  match g1.drop ds.length with
  | '.' :: fs => (natOfDigits ds : ℚ) + (natOfDigits fs : ℚ) / (10 : ℚ) ^ fs.length
  | _ => (natOfDigits ds : ℚ)

/-- Matches `(\d+(?:\.\d+)?)` at the head of `cs` (greedy, as the Python
engine resolves it: maximal digit run, then a maximal fractional part if
a dot followed by a digit is present).  Returns the consumed numeral and
the rest. -/
def takeNumeral (cs : List Char) : Option (List Char × List Char) :=
  let ds := cs.takeWhile Char.isDigit
  if ds.isEmpty then none
  else
    match cs.drop ds.length with
    | '.' :: r2 =>
      let fs := r2.takeWhile Char.isDigit
      if fs.isEmpty then some (ds, cs.drop ds.length)
      else some (ds ++ '.' :: fs, r2.drop fs.length)
    | r => some (ds, r)

/-- One regex match: the full matched span (group(0), original characters)
and the captured numeral (group(1)). -/
structure VMatch where
  g0 : List Char
  g1 : List Char
deriving DecidableEq

/-- The unit alternation `(?:million|billion|m|b)` of the first two value
patterns, tried in pattern order under re.IGNORECASE; returns the
number of characters consumed. -/
def unitMB (cs : List Char) : Option Nat :=
  if ciStartsWith "million".toList cs then some 7
  else if ciStartsWith "billion".toList cs then some 7
  else if ciStartsWith "m".toList cs then some 1
  else if ciStartsWith "b".toList cs then some 1
  else none

/-- The patterns `€(\d+(?:\.\d+)?)\s*(?:million|billion|m|b)` and
`\$(\d+(?:\.\d+)?)\s*(?:million|billion|m|b)` (source lines 164-165),
matched at the head of `cs` (symbol `sym` is '€' or '$').  `\s*` is
greedy and cannot usefully backtrack here since no unit alternative
starts with whitespace. -/
def matchValueSymAt (sym : Char) (cs : List Char) : Option VMatch :=
  match cs with
  | [] => none
  | c :: rest =>
    if c = sym then
      match takeNumeral rest with
      | none => none
      | some (num, r2) =>
        let sp := r2.takeWhile isSpaceChar
        let r3 := r2.drop sp.length
        match unitMB r3 with
        | some k => some ⟨c :: (num ++ sp ++ r3.take k), num⟩
        | none => none
    else none

/-- The pattern `(\d+(?:\.\d+)?)\s*(?:million|billion)\s*(?:euro|eur|€)`
(source line 166), matched at the head of `cs`. -/
def matchValueWordAt (cs : List Char) : Option VMatch :=
  match takeNumeral cs with
  | none => none
  | some (num, r2) =>
    let sp := r2.takeWhile isSpaceChar
    let r3 := r2.drop sp.length
    let unit : Option Nat :=
      if ciStartsWith "million".toList r3 then some 7
      else if ciStartsWith "billion".toList r3 then some 7
      else none
    match unit with
    | none => none
    | some k =>
      let r4 := r3.drop k
      let sp2 := r4.takeWhile isSpaceChar
      let r5 := r4.drop sp2.length
      let cur : Option Nat :=
        if ciStartsWith "euro".toList r5 then some 4
        else if ciStartsWith "eur".toList r5 then some 3
        else if ciStartsWith "€".toList r5 then some 1
        else none
      match cur with
      | none => none
      | some j => some ⟨num ++ sp ++ r3.take k ++ sp2 ++ r5.take j, num⟩

/-- Models `re.search`: try the anchored matcher at every start position, left to
right (including the empty suffix), first success wins. -/
def searchPos {α : Type} (m : List Char → Option α) : List Char → Option α
  | [] => m []
  | c :: rest =>
    match m (c :: rest) with
    | some r => some r
    | none => searchPos m rest

/-- The loop body of `_parse_deal_details` for a successful value match
(source lines 172-180): billion/b normalization to millions and the
EUR/USD currency decision on the matched span. -/
def mk_value_pair (vm : VMatch) : ℚ × String :=
  let base := ratOfNumeral vm.g1
  let value :=
    if containsList "billion".toList (lowerStr vm.g0) || containsList "b".toList (lowerStr vm.g0)
    then base * 1000 else base
  let currency :=
    if vm.g0.contains '€' || containsList "euro".toList (lowerStr vm.g0)
    then "EUR" else "USD"
  (value, currency)

/-- The value/currency extraction loop of `_parse_deal_details`
(source lines 163-181): patterns tried in their listed order, first
pattern whose `re.search` succeeds wins, then the loop breaks. -/
def parse_value (text : List Char) : Option (ℚ × String) :=
  match searchPos (matchValueSymAt '€') text with
  | some vm => some (mk_value_pair vm)
  | none =>
    match searchPos (matchValueSymAt '$') text with
    | some vm => some (mk_value_pair vm)
    | none =>
      match searchPos matchValueWordAt text with
      | some vm => some (mk_value_pair vm)
      | none => none

/-- Python `str.strip()`: remove whitespace from both ends. -/
def pyStrip (l : List Char) : List Char :=
  ((l.dropWhile isSpaceChar).reverse.dropWhile isSpaceChar).reverse

/-- The backtracking search for the greedy captured group
`(\w+(?:\s+\w+)*)` when it is followed by `\s+<alternation>` in the
pattern, with `acc` the capture built so far (always ending at a word
boundary) and `rest` the text after it.  The Python engine extends the
capture as far as possible and backs off token by token until the
lookahead `after` (the rest of the pattern, applied to the text after
the intervening `\s+` run) matches; backing off inside a `\w+` or `\s+`
run can never succeed, since the following pattern element then starts
at a word respectively whitespace character.  `fuel` only bounds the
recursion; any value at least `rest.length` is enough, and callers pass
exactly that. -/
def capChain (fuel : Nat) (acc rest : List Char) (after : List Char → Bool) : Option (List Char) :=
  match fuel with
  | 0 => none
  | fuel + 1 =>
    let sp := rest.takeWhile isSpaceChar
    if sp.isEmpty then none
    else
      let r2 := rest.drop sp.length
      let w := r2.takeWhile isWordChar
      match (if w.isEmpty then none else capChain fuel (acc ++ sp ++ w) (r2.drop w.length) after) with
      | some res => some res
      | none => if after r2 then some acc else none

/-- A pattern `(\w+(?:\s+\w+)*)\s+<alternation>` (the two acquirer
patterns, source lines 184-187), matched with its start anchored at the
head of `cs`; `after` decides the trailing alternation. -/
def matchCapBefore (after : List Char → Bool) (cs : List Char) : Option (List Char) :=
  let w0 := cs.takeWhile isWordChar
  if w0.isEmpty then none
  else capChain cs.length w0 (cs.drop w0.length) after

/-- The trailing alternation `(?:acquires|buys|purchases)` of the first
acquirer pattern. -/
def afterAcqKw (r : List Char) : Bool :=
  ciStartsWith "acquires".toList r || ciStartsWith "buys".toList r ||
    ciStartsWith "purchases".toList r

/-- The trailing literal `to acquire` of the second acquirer pattern. -/
def afterToAcq (r : List Char) : Bool := ciStartsWith "to acquire".toList r

/-- The acquirer extraction loop of `_parse_deal_details` (source lines
184-193): ordered patterns over title+" "+text, first `re.search`
success wins, captured group stripped. -/
def parse_acquirer (combined : List Char) : Option String :=
  match searchPos (matchCapBefore afterAcqKw) combined with
  | some cap => some ⟨pyStrip cap⟩
  | none =>
    match searchPos (matchCapBefore afterToAcq) combined with
    | some cap => some ⟨pyStrip cap⟩
    | none => none

/-- The greedy unanchored tail capture `(\w+(?:\s+\w+)*)` with nothing
after it in the pattern: simply the maximal alternating chain of
whitespace runs and word runs appended to the first word token.  `fuel`
as in `capChain`. -/
def chainFrom (fuel : Nat) (acc rest : List Char) : List Char :=
  match fuel with
  | 0 => acc
  | fuel + 1 =>
    let sp := rest.takeWhile isSpaceChar
    let r2 := rest.drop sp.length
    let w := r2.takeWhile isWordChar
    if sp.isEmpty || w.isEmpty then acc
    else chainFrom fuel (acc ++ sp ++ w) (r2.drop w.length)

/-- A pattern `<kw>\s+(\w+(?:\s+\w+)*)` (the three target patterns,
source lines 195-199), matched with its start anchored at the head of
`cs`. -/
def matchKwThenCap (kw : List Char) (cs : List Char) : Option (List Char) :=
  if ciStartsWith kw cs then
    let r := cs.drop kw.length
    let sp := r.takeWhile isSpaceChar
    if sp.isEmpty then none
    else
      let r2 := r.drop sp.length
      let w0 := r2.takeWhile isWordChar
      if w0.isEmpty then none
      else some (chainFrom r2.length w0 (r2.drop w0.length))
  else none

/-- The target extraction loop of `_parse_deal_details` (source lines
195-205). -/
def parse_target (combined : List Char) : Option String :=
  match searchPos (matchKwThenCap "acquires".toList) combined with
  | some cap => some ⟨pyStrip cap⟩
  | none =>
    match searchPos (matchKwThenCap "buys".toList) combined with
    | some cap => some ⟨pyStrip cap⟩
    | none =>
      match searchPos (matchKwThenCap "purchases".toList) combined with
      | some cap => some ⟨pyStrip cap⟩
      | none => none

/-- The dictionary built by `_parse_deal_details`.  The keys value and
currency are only ever written together, and no key other than value,
currency, acquirer and target is ever written, so the
dictionary is faithfully a triple of options. -/
structure DealInfo where
  value : Option (ℚ × String)
  acquirer : Option String
  target : Option String
deriving DecidableEq

/-- Models `_parse_deal_details(title, text)` (source lines 158-207): the value
patterns search `text` alone, the entity patterns search
`title + " " + text`. -/
def parse_deal_details (title text : String) : DealInfo :=
  let combined := title.toList ++ ' ' :: text.toList
  { value := parse_value text.toList
    acquirer := parse_acquirer combined
    target := parse_target combined }

/-- Python truthiness `not deal_info` of the dictionary. -/
def dealInfoEmpty (d : DealInfo) : Bool :=
  d.value.isNone && d.acquirer.isNone && d.target.isNone

/-- Constant `MIN_DEAL_VALUE` (source line 49), in EUR millions. -/
def MIN_DEAL_VALUE : ℚ := 10

/-- Constant `MAX_DEAL_VALUE` (source line 50), in EUR millions. -/
def MAX_DEAL_VALUE : ℚ := 500

/-- Models `_meets_criteria` (source lines 209-216) applied to
`deal_info.get(..)` at key value.  `if value and not (MIN <= value <= MAX)`:
Python truthiness makes both a missing value and the float 0.0 skip the
range test. -/
def meets_criteria (value : Option ℚ) : Bool :=
  match value with
  | none => true
  | some v => if v ≠ 0 ∧ ¬(MIN_DEAL_VALUE ≤ v ∧ v ≤ MAX_DEAL_VALUE) then false else true

/-- Table `DEAL_KEYWORDS` (source lines 63-68): English, German and Dutch
M&A keywords. -/
def DEAL_KEYWORDS : List String :=
  ["acquires", "acquisition", "merger", "buyout", "takeover",
   "investment", "funding", "joint venture", "partnership",
   "erwirbt", "übernahme", "fusion", "investition",
   "koopt", "overname", "fusie", "investering"]

/-- Models `_is_ma_related` (source lines 116-119): lower-case the input and
test every deal keyword for substring containment. -/
def is_ma_related (text : String) : Bool :=
  DEAL_KEYWORDS.any (fun kw => containsList kw.toList (lowerStr text.toList))

/-- The `industry_keywords` table of `_classify_industry` (source lines
222-233), in its Python insertion order. -/
def industry_keywords : List (String × List String) :=
  [("Technology", ["tech", "software", "digital", "ai", "cloud", "saas"]),
   ("Healthcare", ["health", "medical", "pharma", "biotech", "drug"]),
   ("Financial Services", ["bank", "finance", "fintech", "insurance"]),
   ("Energy", ["energy", "oil", "gas", "renewable", "solar"]),
   ("Manufacturing", ["manufacturing", "industrial", "factory"]),
   ("Retail", ["retail", "consumer", "shopping", "e-commerce"]),
   ("Real Estate", ["real estate", "property", "construction"]),
   ("Media", ["media", "entertainment", "broadcasting", "publishing"]),
   ("Telecommunications", ["telecom", "mobile", "network", "5g"]),
   ("Automotive", ["automotive", "car", "vehicle", "mobility"])]

/-- The `country_keywords` table of `_identify_country` (source lines
245-252), in its Python insertion order. -/
def country_keywords : List (String × List String) :=
  [("Germany", ["germany", "german", "deutschland", "berlin", "munich", "frankfurt"]),
   ("Austria", ["austria", "austrian", "vienna", "österreich"]),
   ("Switzerland", ["switzerland", "swiss", "zurich", "geneva", "schweiz"]),
   ("Netherlands", ["netherlands", "dutch", "amsterdam", "rotterdam"]),
   ("Belgium", ["belgium", "belgian", "brussels", "antwerp"]),
   ("Luxembourg", ["luxembourg", "luxembourgish"])]

/-- The loop shared by `_classify_industry` and `_identify_country`:
walk the table in order and return the first label one of whose
keywords is a substring of the lowered text. -/
def lookupFirst (tl : List Char) : List (String × List String) → Option String
  | [] => none
  | (label, kws) :: rest =>
    if kws.any (fun k => containsList k.toList tl) then some label else lookupFirst tl rest

/-- Models `_classify_industry` (source lines 218-239). -/
def classify_industry (text : String) : String :=
  (lookupFirst (lowerStr text.toList) industry_keywords).getD "Other"

/-- Models `_identify_country` (source lines 241-258). -/
def identify_country (text : String) : String :=
  (lookupFirst (lowerStr text.toList) country_keywords).getD "Unknown"

/-! Date normalizer (`_parse_date`, source lines 260-274)

`datetime.strptime` compiles the format into a regular expression
(matched from the start, case-insensitively, with a full-consumption
check afterwards) and then constructs a `datetime`, which validates the
calendar date; any failure raises ValueError, which `_parse_date`
swallows.  The regex alternations prefer the two-digit variant of each
field, and a literal space in the format matches a nonempty whitespace
run.  (The `%S` class also admits the leap-second values 60-61, but the
`datetime` constructor then rejects them, so the observable result -
fall through to the next strategy - is the same as failing the parse,
which is how it is modelled here.) -/

def isLeapYear (y : Nat) : Bool := (y % 4 = 0 && y % 100 != 0) || y % 400 = 0

def daysInMonth (y m : Nat) : Nat :=
  if m = 2 then (if isLeapYear y then 29 else 28)
  else if m = 4 || m = 6 || m = 9 || m = 11 then 30
  else 31

/-- Directive `%Y`: exactly four digits. -/
def takeYear4 : List Char → Option (Nat × List Char)
  | a :: b :: c :: d :: r =>
    if a.isDigit && b.isDigit && c.isDigit && d.isDigit then
      some (digitVal a * 1000 + digitVal b * 100 + digitVal c * 10 + digitVal d, r)
    else none
  | _ => none

/-- Directive `%m`, two-digit alternatives `1[0-2]|0[1-9]`. -/
def takeMonth2 : List Char → Option (Nat × List Char)
  | a :: b :: r =>
    if a = '1' ∧ '0' ≤ b ∧ b ≤ '2' then some (10 + digitVal b, r)
    else if a = '0' ∧ '1' ≤ b ∧ b ≤ '9' then some (digitVal b, r)
    else none
  | _ => none

/-- Directive `%m`, one-digit alternative `[1-9]`. -/
def takeMonth1 : List Char → Option (Nat × List Char)
  | a :: r => if '1' ≤ a ∧ a ≤ '9' then some (digitVal a, r) else none
  | _ => none

/-- Directive `%d`, two-digit alternatives `3[01]|[12]\d|0[1-9]`. -/
def takeDay2 : List Char → Option (Nat × List Char)
  | a :: b :: r =>
    if a = '3' ∧ ('0' ≤ b ∧ b ≤ '1') then some (30 + digitVal b, r)
    else if ('1' ≤ a ∧ a ≤ '2') ∧ b.isDigit then some (digitVal a * 10 + digitVal b, r)
    else if a = '0' ∧ '1' ≤ b ∧ b ≤ '9' then some (digitVal b, r)
    else none
  | _ => none

/-- Directive `%d`, one-digit alternative `[1-9]`. -/
def takeDay1 : List Char → Option (Nat × List Char)
  | a :: r => if '1' ≤ a ∧ a ≤ '9' then some (digitVal a, r) else none
  | _ => none

/-- Directive `%H`, two-digit alternatives `2[0-3]|[0-1]\d`. -/
def takeHour2 : List Char → Option (List Char)
  | a :: b :: r =>
    if (a = '2' ∧ '0' ≤ b ∧ b ≤ '3') ∨ (('0' ≤ a ∧ a ≤ '1') ∧ b.isDigit) then some r else none
  | _ => none

/-- Directives `%H`/`%M`/`%S`, one-digit alternative `\d`. -/
def takeDigit1 : List Char → Option (List Char)
  | a :: r => if a.isDigit then some r else none
  | _ => none

/-- Directives `%M`/`%S`, two-digit alternative `[0-5]\d`. -/
def takeMinSec2 : List Char → Option (List Char)
  | a :: b :: r => if ('0' ≤ a ∧ a ≤ '5') ∧ b.isDigit then some r else none
  | _ => none

/-- Fragment `:MM:SS` with full consumption at the end. -/
def parseMinSecTail (cs : List Char) : Option Unit :=
  match cs with
  | ':' :: r =>
    let trySec : List Char → Option Unit := fun r2 =>
      match r2 with
      | ':' :: r3 =>
        let fin : List Char → Option Unit := fun r4 => if r4.isEmpty then some () else none
        ((takeMinSec2 r3).bind fin).orElse (fun _ => (takeDigit1 r3).bind fin)
      | _ => none
    ((takeMinSec2 r).bind trySec).orElse (fun _ => (takeDigit1 r).bind trySec)
  | _ => none

/-- Fragment `%H:%M:%S` with the `%H` alternatives and full consumption. -/
def parseHourTail (cs : List Char) : Option Unit :=
  ((takeHour2 cs).bind parseMinSecTail).orElse (fun _ => (takeDigit1 cs).bind parseMinSecTail)

/-- Format `%Y-%m-%dT%H:%M:%S` on the truncated string: the ISO strategy of
`_parse_date` (source line 267), including the calendar validation of the
`datetime` constructor.  Returns the calendar date. -/
def parseIso (cs : List Char) : Option (Nat × Nat × Nat) :=
  match takeYear4 cs with
  | none => none
  | some (y, r) =>
    match r with
    | '-' :: r2 =>
      let tryM : Nat × List Char → Option (Nat × Nat × Nat) := fun (m, r3) =>
        match r3 with
        | '-' :: r4 =>
          let tryD : Nat × List Char → Option (Nat × Nat × Nat) := fun (d, r5) =>
            match r5 with
            | t :: r6 =>
              if t = 'T' ∨ t = 't' then
                match parseHourTail r6 with
                | some _ => if 1 ≤ y ∧ d ≤ daysInMonth y m then some (y, m, d) else none
                | none => none
              else none
            | [] => none
          ((takeDay2 r4).bind tryD).orElse (fun _ => (takeDay1 r4).bind tryD)
        | _ => none
      ((takeMonth2 r2).bind tryM).orElse (fun _ => (takeMonth1 r2).bind tryM)
    | _ => none

/-- Directive `%b`: the twelve month-name abbreviations, matched
case-insensitively. -/
def takeMonthAbbrev (cs : List Char) : Option (Nat × List Char) :=
  match cs with
  | a :: b :: c :: r =>
    let w := lowerStr [a, b, c]
    if w = "jan".toList then some (1, r)
    else if w = "feb".toList then some (2, r)
    else if w = "mar".toList then some (3, r)
    else if w = "apr".toList then some (4, r)
    else if w = "may".toList then some (5, r)
    else if w = "jun".toList then some (6, r)
    else if w = "jul".toList then some (7, r)
    else if w = "aug".toList then some (8, r)
    else if w = "sep".toList then some (9, r)
    else if w = "oct".toList then some (10, r)
    else if w = "nov".toList then some (11, r)
    else if w = "dec".toList then some (12, r)
    else none
  | _ => none

/-- Format `%d %b %Y` with full consumption and calendar validation: the
RFC-822 strategy of `_parse_date` (source line 271) applied to the
prepared fragment. -/
def parseRfcTail (cs : List Char) : Option (Nat × Nat × Nat) :=
  let tryD : Nat × List Char → Option (Nat × Nat × Nat) := fun (d, r) =>
    let sp := r.takeWhile isSpaceChar
    if sp.isEmpty then none
    else
      match takeMonthAbbrev (r.drop sp.length) with
      | none => none
      | some (m, r3) =>
        let sp2 := r3.takeWhile isSpaceChar
        if sp2.isEmpty then none
        else
          match takeYear4 (r3.drop sp2.length) with
          | some (y, r5) =>
            if r5.isEmpty ∧ 1 ≤ y ∧ d ≤ daysInMonth y m then some (y, m, d) else none
          | none => none
  ((takeDay2 cs).bind tryD).orElse (fun _ => (takeDay1 cs).bind tryD)

/-- Python `str.split` at commas: split at every comma, keeping empty
fields (the result is never the empty list). -/
def splitComma : List Char → List (List Char)
  | [] => [[]]
  | c :: rest =>
    let r := splitComma rest
    if c = ',' then [] :: r
    else
      match r with
      | h :: t => (c :: h) :: t
      | [] => [[c]]

/-- Models the expression that splits `date_str` at commas, takes index 1,
strips it and truncates to 11 characters, fed to `%d %b %Y`: a missing
second comma field raises IndexError, swallowed by the bare `except`. -/
def parseRfc (s : String) : Option (Nat × Nat × Nat) :=
  match (splitComma s.toList).get? 1 with
  | none => none
  | some part => parseRfcTail ((pyStrip part).take 11)

def digitChar (n : Nat) : Char := Char.ofNat (48 + n)

/-- Models `date.isoformat()`: YYYY-MM-DD with zero padding (years here are
always four digits by construction). -/
def fmtIsoDate (ymd : Nat × Nat × Nat) : String :=
  ⟨[digitChar (ymd.1 / 1000 % 10), digitChar (ymd.1 / 100 % 10),
    digitChar (ymd.1 / 10 % 10), digitChar (ymd.1 % 10), '-',
    digitChar (ymd.2.1 / 10 % 10), digitChar (ymd.2.1 % 10), '-',
    digitChar (ymd.2.2 / 10 % 10), digitChar (ymd.2.2 % 10)]⟩

/-- Models `_parse_date` (source lines 260-274).  `today` stands for
`datetime.now().date().isoformat()` at the moment of the call; it is
returned for a falsy (empty) input and as the final fallback when both
parse strategies raise. -/
def parse_date (today : String) (date_str : String) : String :=
  if date_str = "" then today
  else
    match parseIso (date_str.toList.take 19) with
    | some ymd => fmtIsoDate ymd
    | none =>
      match parseRfc date_str with
      | some ymd => fmtIsoDate ymd
      | none => today

/-- One RSS article as consumed by `extract_deal_info`: the dictionary
built in `scrape_rss_feeds` (source lines 100-106). -/
structure Article where
  title : String
  link : String
  published : String
  summary : String
deriving DecidableEq

/-- The `MADeal` dataclass (source lines 23-37). -/
structure MADeal where
  deal_title : String
  date : String
  deal_value : Option ℚ
  currency : String
  deal_type : String
  acquirer_name : String
  target_name : String
  industry : String
  country : String
  region : String
  source_url : String
  scraped_at : String
deriving DecidableEq

/-- Models `extract_deal_info` (source lines 121-156) on the success path of
the external article fetch, whose fetched page text is the parameter
`full_text`; an exception in the fetch itself is caught and yields None
outside this model.  `today` and `now_iso` stand for
`datetime.now().date().isoformat()` and `datetime.now().isoformat()` at
the moment of the call.  The keys title, type, industry,
country and region are never written by `_parse_deal_details`, so
their `.get` defaults always apply. -/
def extract_deal_info (today now_iso : String) (article : Article) (full_text : String) :
    Option MADeal :=
  let deal_info := parse_deal_details article.title full_text
  if dealInfoEmpty deal_info then none
  else if meets_criteria (deal_info.value.map Prod.fst) then
    some
      { deal_title := article.title
        date := parse_date today article.published
        deal_value := deal_info.value.map Prod.fst
        currency := (deal_info.value.map Prod.snd).getD "EUR"
        deal_type := "M&A"
        acquirer_name := deal_info.acquirer.getD ""
        target_name := deal_info.target.getD ""
        industry := classify_industry full_text
        country := identify_country full_text
        region := ""
        source_url := article.link
        scraped_at := now_iso }
  else none

/-! Definitions following the words of the specification, for the
refinement claims. -/

/-- The fixed priority order of value patterns from the spec:
Euro-before-symbol, Dollar-before-symbol, number-before-currency-word,
each searched anywhere in the text. -/
def value_pattern_list : List (List Char → Option VMatch) :=
  [searchPos (matchValueSymAt '€'), searchPos (matchValueSymAt '$'),
   searchPos matchValueWordAt]

/-- Following the spec: "use the FIRST pattern that matches anywhere in
the text". -/
def first_matching_pattern (text : List Char) : Option VMatch :=
  value_pattern_list.findSome? (fun f => f text)

/-- Following the Keyword Classifier contract of the spec: "returns the
first label (in declared table order) having at least one keyword as a
case-insensitive substring of the lower-cased text; returns a sentinel
if none match". -/
def keyword_classifier_spec (table : List (String × List String)) (sentinel : String)
    (text : String) : String :=
  match table.find? (fun p => p.2.any (fun k => containsList k.toList (lowerStr text.toList))) with
  | some p => p.1
  | none => sentinel

/-- Following the Date Normalizer contract of the spec: the ordered strategy
list, first success wins, fallback to the current date. -/
def date_normalizer_spec (today : String) (s : String) : String :=
  match ([parseIso (s.toList.take 19), parseRfc s].findSome? id) with
  | some ymd => fmtIsoDate ymd
  | none => today

/-- Blanks the capture timestamp, for comparing two runs of the
assembler up to `scraped_at`. -/
def eraseStamp (d : MADeal) : MADeal := { d with scraped_at := "" }

/-! Helper lemmas -/

theorem containsList_iff (pat l : List Char) : containsList pat l = true ↔ pat <:+: l := by
  induction l with
  | nil =>
    simp [containsList, List.isEmpty_iff, List.infix_nil]
  | cons c rest ih =>
    simp [containsList, List.isPrefixOf_iff_prefix, ih, List.infix_cons_iff]

theorem lookupFirst_eq_find (tl : List Char) (tab : List (String × List String)) :
    lookupFirst tl tab =
      (tab.find? (fun p => p.2.any (fun k => containsList k.toList tl))).map Prod.fst := by
  induction tab with
  | nil => rfl
  | cons hd rest ih =>
    obtain ⟨label, kws⟩ := hd
    by_cases h : (kws.any fun k => containsList k.toList tl) = true
    · show (if kws.any (fun k => containsList k.toList tl) then some label
          else lookupFirst tl rest) = _
      rw [if_pos h]
      simp only [List.find?_cons]
      rw [h]
      rfl
    · show (if kws.any (fun k => containsList k.toList tl) then some label
          else lookupFirst tl rest) = _
      rw [if_neg h, ih]
      simp only [List.find?_cons]
      rw [Bool.not_eq_true] at h
      rw [h]

/-! Claims -/

/-- Claim C1, counterexample: a candidate with the present extracted
value 0.0 is admitted by `_meets_criteria` although 0.0 is out of range,
so "when a value v is present it returns true if and only if
10 <= v <= 500" is false at v = 0. -/
theorem C1_counterexample :
    meets_criteria (some 0) = true ∧ ¬(MIN_DEAL_VALUE ≤ (0 : ℚ) ∧ (0 : ℚ) ≤ MAX_DEAL_VALUE) :=
  ⟨by decide, by decide⟩

/-- Claim C1 (amended): the admission check returns true when the
extracted value is absent, and also when it is exactly 0 (Python
truthiness skips the range test); when a nonzero value v is present it
returns true if and only if 10 <= v <= 500 inclusive; in particular
value 5 and 501 are rejected and 10, 500 and None are admitted, and an
out-of-range value is rejected entirely rather than clamped. -/
theorem C1_admission_filter :
    meets_criteria none = true ∧
    meets_criteria (some 0) = true ∧
    meets_criteria (some 5) = false ∧
    meets_criteria (some 10) = true ∧
    meets_criteria (some 500) = true ∧
    meets_criteria (some 501) = false ∧
    ∀ v : ℚ, v ≠ 0 →
      (meets_criteria (some v) = true ↔ (MIN_DEAL_VALUE ≤ v ∧ v ≤ MAX_DEAL_VALUE)) := by
  refine ⟨by decide, by decide, by decide, by decide, by decide, by decide, ?_⟩
  intro v hv
  simp only [meets_criteria]
  by_cases hr : MIN_DEAL_VALUE ≤ v ∧ v ≤ MAX_DEAL_VALUE
  · simp [hv, hr]
  · simp [hv, hr]

/-- Claim C1, witness: the amended characterization applied at the
concrete nonzero value 42. -/
theorem C1_admission_filter_witness :
    meets_criteria (some 42) = true ↔
      (MIN_DEAL_VALUE ≤ (42 : ℚ) ∧ (42 : ℚ) ≤ MAX_DEAL_VALUE) :=
  C1_admission_filter.2.2.2.2.2.2 42 (by norm_num)

/-- Claim C2, counterexample: for an article where the value extractor,
acquirer extractor and target extractor all find nothing, the assembler
returns nothing instead of a defaulted record (the dictionary is empty,
`if not deal_info: return None` fires). -/
theorem C2_counterexample :
    parse_deal_details "hello" "hello world" =
      { value := none, acquirer := none, target := none } ∧
    extract_deal_info "2025-06-01" "2025-06-01T08:00:00"
      { title := "hello", link := "u", published := "", summary := "hello world" }
      "hello world" = none :=
  ⟨by decide, by decide⟩

/-- Claim C2 (amended): extraction misses degrade to defaults rather
than failing the record, provided at least one of the three
sub-extractors found something (and admission passes); an article for
which all three find nothing yields no record at all.  The concrete
conjunct shows an article with a value miss and a target miss still
producing a completed record with default fields. -/
theorem C2_degradation :
    (∀ (today now_iso : String) (a : Article) (ft : String),
      dealInfoEmpty (parse_deal_details a.title ft) = false →
      meets_criteria ((parse_deal_details a.title ft).value.map Prod.fst) = true →
      extract_deal_info today now_iso a ft =
        some
          { deal_title := a.title
            date := parse_date today a.published
            deal_value := (parse_deal_details a.title ft).value.map Prod.fst
            currency := ((parse_deal_details a.title ft).value.map Prod.snd).getD "EUR"
            deal_type := "M&A"
            acquirer_name := (parse_deal_details a.title ft).acquirer.getD ""
            target_name := (parse_deal_details a.title ft).target.getD ""
            industry := classify_industry ft
            country := identify_country ft
            region := ""
            source_url := a.link
            scraped_at := now_iso }) ∧
    extract_deal_info "2025-06-01" "2025-06-01T08:00:00"
      { title := "Megacorp to acquire", link := "u", published := "",
        summary := "Megacorp to acquire" }
      "Megacorp to acquire" =
    some
      { deal_title := "Megacorp to acquire", date := "2025-06-01", deal_value := none,
        currency := "EUR", deal_type := "M&A",
        acquirer_name := "Megacorp to acquire Megacorp", target_name := "",
        industry := "Other", country := "Unknown", region := "", source_url := "u",
        scraped_at := "2025-06-01T08:00:00" } := by
  constructor
  · intro today now_iso a ft h1 h2
    simp [extract_deal_info, h1, h2]
  · decide

/-- Claim C2, witness: the degradation theorem applied to a concrete
article whose value and target extractors miss. -/
theorem C2_degradation_witness :
    extract_deal_info "2030-01-01" "2030-01-01T09:00:00"
      { title := "Initech to acquire", link := "v", published := "",
        summary := "Initech to acquire" }
      "Initech to acquire" =
    some
      { deal_title := "Initech to acquire",
        date := parse_date "2030-01-01" "",
        deal_value := (parse_deal_details "Initech to acquire" "Initech to acquire").value.map Prod.fst,
        currency := ((parse_deal_details "Initech to acquire" "Initech to acquire").value.map Prod.snd).getD "EUR",
        deal_type := "M&A",
        acquirer_name := (parse_deal_details "Initech to acquire" "Initech to acquire").acquirer.getD "",
        target_name := (parse_deal_details "Initech to acquire" "Initech to acquire").target.getD "",
        industry := classify_industry "Initech to acquire",
        country := identify_country "Initech to acquire",
        region := "", source_url := "v", scraped_at := "2030-01-01T09:00:00" } :=
  C2_degradation.1 "2030-01-01" "2030-01-01T09:00:00"
    { title := "Initech to acquire", link := "v", published := "",
      summary := "Initech to acquire" }
    "Initech to acquire" (by decide) (by decide)

/-- Claim C3, counterexample: on the end-to-end article of the spec the
acquirer_name and target_name of the assembled record are the greedy
regex captures, not "TechCorp" and "StartupX". -/
theorem C3_counterexample :
    (extract_deal_info "2025-06-01" "2025-06-01T08:00:00"
        { title := "TechCorp acquires StartupX", link := "https://example.com/a",
          published := "2024-03-15T10:00:00Z",
          summary := "TechCorp acquires StartupX for €120 million, expanding its SaaS portfolio in Germany." }
        "TechCorp acquires StartupX for €120 million, expanding its SaaS portfolio in Germany.").map
        MADeal.acquirer_name = some "TechCorp acquires StartupX TechCorp" ∧
    ("TechCorp acquires StartupX TechCorp" : String) ≠ "TechCorp" ∧
    (extract_deal_info "2025-06-01" "2025-06-01T08:00:00"
        { title := "TechCorp acquires StartupX", link := "https://example.com/a",
          published := "2024-03-15T10:00:00Z",
          summary := "TechCorp acquires StartupX for €120 million, expanding its SaaS portfolio in Germany." }
        "TechCorp acquires StartupX for €120 million, expanding its SaaS portfolio in Germany.").map
        MADeal.target_name = some "StartupX TechCorp acquires StartupX for" ∧
    ("StartupX TechCorp acquires StartupX for" : String) ≠ "StartupX" :=
  ⟨by decide, by decide, by decide, by decide⟩

/-- Claim C3 (amended): the end-to-end article is admitted with
deal_value 120.0, currency "EUR", industry "Technology", country
"Germany" and date "2024-03-15" as claimed, but the greedy captures of the
entity extractor make acquirer_name "TechCorp acquires StartupX
TechCorp" and target_name "StartupX TechCorp acquires StartupX for". -/
theorem C3_end_to_end :
    extract_deal_info "2025-06-01" "2025-06-01T08:00:00"
      { title := "TechCorp acquires StartupX", link := "https://example.com/a",
        published := "2024-03-15T10:00:00Z",
        summary := "TechCorp acquires StartupX for €120 million, expanding its SaaS portfolio in Germany." }
      "TechCorp acquires StartupX for €120 million, expanding its SaaS portfolio in Germany." =
    some
      { deal_title := "TechCorp acquires StartupX", date := "2024-03-15",
        deal_value := some 120, currency := "EUR", deal_type := "M&A",
        acquirer_name := "TechCorp acquires StartupX TechCorp",
        target_name := "StartupX TechCorp acquires StartupX for",
        industry := "Technology", country := "Germany", region := "",
        source_url := "https://example.com/a", scraped_at := "2025-06-01T08:00:00" } := by
  decide

/-- Claim C4: value extractor examples, with the billion/trailing-b
normalization exhibited on the matched span of the billion case, and
the miss case: text matched by no pattern yields nothing. -/
theorem C4_value_extractor_examples :
    parse_value "€250 million".toList = some (250, "EUR") ∧
    parse_value "€1.2 billion".toList = some (1200, "EUR") ∧
    searchPos (matchValueSymAt '€') "€1.2 billion".toList =
      some ⟨"€1.2 billion".toList, "1.2".toList⟩ ∧
    containsList "billion".toList (lowerStr "€1.2 billion".toList) = true ∧
    ratOfNumeral "1.2".toList * 1000 = 1200 ∧
    parse_value "$80m".toList = some (80, "USD") ∧
    ∀ t : List Char,
      searchPos (matchValueSymAt '€') t = none →
      searchPos (matchValueSymAt '$') t = none →
      searchPos matchValueWordAt t = none →
      parse_value t = none := by
  have hr : ratOfNumeral "1.2".toList = ((1 : ℕ) : ℚ) + ((2 : ℕ) : ℚ) / (10 : ℚ) ^ (1 : ℕ) := rfl
  refine ⟨by decide, ?_, by decide, by decide, ?_, by decide, ?_⟩
  · have hs : searchPos (matchValueSymAt '€') "€1.2 billion".toList =
        some ⟨"€1.2 billion".toList, "1.2".toList⟩ := by decide
    simp only [parse_value, hs, mk_value_pair, hr]
    norm_num
    decide
  · rw [hr]; norm_num
  · intro t h1 h2 h3
    simp [parse_value, h1, h2, h3]

/-- Claim C4, witness: the no-pattern-matches case at a concrete
text. -/
theorem C4_value_extractor_examples_witness :
    parse_value "no value mentioned at all".toList = none :=
  C4_value_extractor_examples.2.2.2.2.2.2 "no value mentioned at all".toList
    (by decide) (by decide) (by decide)

/-- Claim C5: the result of the extractor comes from the first pattern in
the fixed order (euro symbol, dollar symbol, number before currency
word) whose search succeeds anywhere in the text, and the currency is
"EUR" exactly when the matched span contains the euro sign or the word
"euro" case-insensitively; the concrete conjuncts show a text where the
dollar pattern matches earlier in the text with a larger magnitude yet
the match of the euro pattern is used. -/
theorem C5_pattern_priority_and_currency :
    (∀ text : List Char,
      parse_value text = (first_matching_pattern text).map mk_value_pair) ∧
    (∀ (text : List Char) (vm : VMatch), first_matching_pattern text = some vm →
      ((mk_value_pair vm).2 = "EUR" ↔
        ('€' ∈ vm.g0 ∨ "euro".toList <:+: lowerStr vm.g0))) ∧
    parse_value "$999 billion deal for €20m".toList = some (20, "EUR") ∧
    searchPos (matchValueSymAt '$') "$999 billion deal for €20m".toList =
      some ⟨"$999 billion".toList, "999".toList⟩ := by
  refine ⟨?_, ?_, by decide, by decide⟩
  · intro text
    simp only [parse_value, first_matching_pattern, value_pattern_list]
    cases h1 : searchPos (matchValueSymAt '€') text with
    | some vm => simp [List.findSome?_cons, h1]
    | none =>
      cases h2 : searchPos (matchValueSymAt '$') text with
      | some vm => simp [List.findSome?_cons, h1, h2]
      | none =>
        cases h3 : searchPos matchValueWordAt text with
        | some vm => simp [List.findSome?_cons, h1, h2, h3]
        | none => simp [List.findSome?_cons, h1, h2, h3]
  · intro text vm _
    have hb : (vm.g0.contains '€' || containsList "euro".toList (lowerStr vm.g0)) = true ↔
        ('€' ∈ vm.g0 ∨ "euro".toList <:+: lowerStr vm.g0) := by
      rw [Bool.or_eq_true, containsList_iff]
      constructor
      · rintro (hc | hc)
        · exact Or.inl (by simpa [List.contains_iff_exists_mem_beq, beq_iff_eq] using hc)
        · exact Or.inr hc
      · rintro (hc | hc)
        · exact Or.inl (by simpa [List.contains_iff_exists_mem_beq, beq_iff_eq] using hc)
        · exact Or.inr hc
    by_cases hc : (vm.g0.contains '€' || containsList "euro".toList (lowerStr vm.g0)) = true
    · have he : (mk_value_pair vm).2 = "EUR" := by
        show (if vm.g0.contains '€' || containsList "euro".toList (lowerStr vm.g0)
            then "EUR" else "USD") = "EUR"
        exact if_pos hc
      rw [he]
      exact iff_of_true rfl (hb.mp hc)
    · rw [Bool.not_eq_true] at hc
      have he : (mk_value_pair vm).2 = "USD" := by
        show (if vm.g0.contains '€' || containsList "euro".toList (lowerStr vm.g0)
            then "EUR" else "USD") = "USD"
        exact if_neg (by rw [hc]; simp)
      rw [he]
      constructor
      · intro h; exact absurd h (by decide)
      · intro h
        have hcontra := hb.mpr h
        rw [hc] at hcontra
        exact absurd hcontra (by decide)

/-- Claim C5, witness: the currency characterization applied to the
match the extractor produces on a concrete text. -/
theorem C5_pattern_priority_and_currency_witness :
    (mk_value_pair ⟨"€5m".toList, "5".toList⟩).2 = "EUR" ↔
      ('€' ∈ "€5m".toList ∨ "euro".toList <:+: lowerStr "€5m".toList) :=
  C5_pattern_priority_and_currency.2.1 "€5m".toList ⟨"€5m".toList, "5".toList⟩ (by decide)

/-- Claim C6: the relevance classifier is a total function on strings
returning true exactly when some keyword of the fixed multilingual list
occurs as a substring of the lower-cased input; any text containing
"acquisition" in any case yields true, and the empty string yields
false. -/
theorem C6_relevance_classifier :
    (∀ t : String, is_ma_related t = true ↔
      ∃ kw ∈ DEAL_KEYWORDS, kw.toList <:+: lowerStr t.toList) ∧
    (∀ pre s suf : List Char, lowerStr s = "acquisition".toList →
      is_ma_related ⟨pre ++ s ++ suf⟩ = true) ∧
    is_ma_related "" = false := by
  refine ⟨?_, ?_, by decide⟩
  · intro t
    simp [is_ma_related, List.any_eq_true, containsList_iff]
  · intro pre s suf h
    simp only [is_ma_related, List.any_eq_true]
    refine ⟨"acquisition", by decide, ?_⟩
    rw [containsList_iff]
    show "acquisition".toList <:+: lowerStr (pre ++ s ++ suf)
    refine ⟨lowerStr pre, lowerStr suf, ?_⟩
    rw [← h]
    simp [lowerStr, List.map_append]

/-- Claim C6, witness: the substring property applied at a concrete
mixed-case occurrence of "acquisition". -/
theorem C6_relevance_classifier_witness :
    is_ma_related ⟨"An ".toList ++ "AcQuiSiTion".toList ++ " rumor".toList⟩ = true :=
  C6_relevance_classifier.2.1 "An ".toList "AcQuiSiTion".toList " rumor".toList (by decide)

/-- Claim C7: the date normalizer equals the ordered-strategy chain
(ISO-8601 truncated to 19 characters, then RFC-822 after splitting on
comma, then the current date), never raising; the ISO example yields
"2024-03-15" and empty or unparseable strings yield the current date. -/
theorem C7_date_normalizer :
    (∀ today s : String, parse_date today s = date_normalizer_spec today s) ∧
    (∀ today : String, parse_date today "2024-03-15T10:00:00Z" = "2024-03-15") ∧
    (∀ today : String, parse_date today "Fri, 15 Mar 2024 10:00:00 GMT" = "2024-03-15") ∧
    (∀ today : String, parse_date today "" = today) ∧
    ∀ today s : String, parseIso (s.toList.take 19) = none → parseRfc s = none →
      parse_date today s = today := by
  refine ⟨?_, fun _ => rfl, fun _ => rfl, fun _ => rfl, ?_⟩
  · intro today s
    by_cases hs : s = ""
    · subst hs; rfl
    · simp only [parse_date, date_normalizer_spec, hs, if_false]
      cases h1 : parseIso (s.toList.take 19) with
      | some ymd => simp [List.findSome?_cons, h1]
      | none =>
        cases h2 : parseRfc s with
        | some ymd => simp [List.findSome?_cons, h1, h2]
        | none => simp [List.findSome?_cons, h1, h2]
  · intro today s h1 h2
    by_cases hs : s = ""
    · subst hs; rfl
    · have h1d : parseIso (List.take 19 s.data) = none := h1
      have h2d : parseRfc s = none := h2
      simp [parse_date, hs, h1d, h2d, h1, h2]

/-- Claim C7, witness: the unparseable-input fallback applied at a
concrete malformed date string. -/
theorem C7_date_normalizer_witness :
    parse_date "2030-01-01" "13 June 2024" = "2030-01-01" :=
  C7_date_normalizer.2.2.2.2 "2030-01-01" "13 June 2024" (by decide) (by decide)

/-- Claim C8: both keyword classifiers return the first label of their
fixed table (in declared order) with a keyword occurring
case-insensitively in the text, with sentinels "Other" and "Unknown"
when nothing matches; any text containing "SaaS platform" classifies as
"Technology". -/
theorem C8_keyword_classifier :
    (∀ t : String, classify_industry t = keyword_classifier_spec industry_keywords "Other" t) ∧
    (∀ t : String, identify_country t = keyword_classifier_spec country_keywords "Unknown" t) ∧
    ∀ t : String, containsList "SaaS platform".toList t.toList = true →
      classify_industry t = "Technology" := by
  refine ⟨?_, ?_, ?_⟩
  · intro t
    rw [classify_industry, lookupFirst_eq_find, keyword_classifier_spec]
    cases h : industry_keywords.find?
        (fun p => p.2.any (fun k => containsList k.toList (lowerStr t.toList))) with
    | some p => simp [h]
    | none => simp [h]
  · intro t
    rw [identify_country, lookupFirst_eq_find, keyword_classifier_spec]
    cases h : country_keywords.find?
        (fun p => p.2.any (fun k => containsList k.toList (lowerStr t.toList))) with
    | some p => simp [h]
    | none => simp [h]
  · intro t h
    obtain ⟨u, w, huw⟩ := (containsList_iff _ _).mp h
    have hsp : "saas platform".toList <:+: lowerStr t.toList := by
      refine ⟨lowerStr u, lowerStr w, ?_⟩
      rw [← huw]
      simp only [lowerStr, List.map_append]
      rfl
    have hsaas : "saas".toList <:+: lowerStr t.toList :=
      List.IsInfix.trans ⟨[], " platform".toList, rfl⟩ hsp
    have hany : (industry_keywords.head!.2).any
        (fun k => containsList k.toList (lowerStr t.toList)) = true := by
      refine List.any_eq_true.mpr ⟨"saas", by decide, ?_⟩
      exact (containsList_iff _ _).mpr hsaas
    simp only [classify_industry, industry_keywords, lookupFirst]
    rw [show (["tech", "software", "digital", "ai", "cloud", "saas"].any
        (fun k => containsList k.toList (lowerStr t.toList))) = true from hany]
    rfl

/-- Claim C8, witness: the "SaaS platform" consequence at a concrete
text. -/
theorem C8_keyword_classifier_witness :
    classify_industry "Leading SaaS platform vendor" = "Technology" :=
  C8_keyword_classifier.2.2 "Leading SaaS platform vendor" (by decide)

/-- Claim C9, counterexample: two runs of the assembler on an identical
article whose published string is empty differ in the date field (not
only in scraped_at), because the date normalizer falls back to the
current date of the run. -/
theorem C9_counterexample :
    (extract_deal_info "2024-01-01" "2024-01-01T08:00:00"
        { title := "A acquires B", link := "u", published := "", summary := "A acquires B" }
        "A acquires B").map MADeal.date = some "2024-01-01" ∧
    (extract_deal_info "2024-01-02" "2024-01-02T08:00:00"
        { title := "A acquires B", link := "u", published := "", summary := "A acquires B" }
        "A acquires B").map MADeal.date = some "2024-01-02" ∧
    ("2024-01-01" : String) ≠ "2024-01-02" :=
  ⟨by decide, by decide, by decide⟩

/-- Claim C9 (amended): two runs of the assembler on the identical
article input (and identical fetched text) that share the same current
date yield records identical in every field except scraped_at; when the
published string is unparseable the date field tracks the current date of
the run, so runs on different days may also differ in date. -/
theorem C9_determinism :
    ∀ (today iso1 iso2 : String) (a : Article) (ft : String),
      (extract_deal_info today iso1 a ft).map eraseStamp =
      (extract_deal_info today iso2 a ft).map eraseStamp := by
  intro today iso1 iso2 a ft
  by_cases h1 : dealInfoEmpty (parse_deal_details a.title ft) = true
  · simp [extract_deal_info, h1]
  · rw [Bool.not_eq_true] at h1
    by_cases h2 : meets_criteria ((parse_deal_details a.title ft).value.map Prod.fst) = true
    · simp [extract_deal_info, h1, h2, eraseStamp]
    · rw [Bool.not_eq_true] at h2
      simp [extract_deal_info, h1, h2]

/-- Claim C10: the admission check truthiness-tests the value before
the range test, so an extracted value of exactly 0.0 is admitted even
though it is below MIN_DEAL_VALUE, and such a value is reachable from
the text "€0 million". -/
theorem C10_zero_value_admitted :
    meets_criteria (some 0) = true ∧
    ¬(MIN_DEAL_VALUE ≤ (0 : ℚ)) ∧
    parse_value "€0 million".toList = some (0, "EUR") ∧
    (parse_deal_details "Foo acquires Bar" "Foo acquires Bar for €0 million").value =
      some (0, "EUR") ∧
    meets_criteria
      ((parse_deal_details "Foo acquires Bar" "Foo acquires Bar for €0 million").value.map
        Prod.fst) = true :=
  ⟨by decide, by decide, by decide, by decide, by decide⟩

end Mergelytics
